import Mathlib

/-!
Shallow embedding of the PC-component catalog core (name parsing,
specification extraction, benchmark scoring, catalog upsert, staleness
sweep, compatibility checking and build scoring) and proofs about it.

Conventions of the embedding:
* Python strings are `List Char`; Python `a in b` on strings is
  `isSubstr` (substring test).
* Python numbers (int/float) are modelled as `ℚ`; decimal literals such
  as `0.33` denote the exact rational the source writes.
* A Python dict read with `d.get(k, 0)` / `d.get(k)` is modelled either
  as a structure field whose default stands for the absent key, or as an
  association-list lookup, depending on how the source uses the dict.
* Issue description strings (pure presentation) are elided; an issue is
  its severity and kind.
-/

namespace PCCore

/-- Python `str.lower()` (ASCII as used by the repository). -/
def lower (s : List Char) : List Char := s.map Char.toLower

/-- Python truthiness of an optional string: `None` and `""` are falsy. -/
def truthyS : Option (List Char) → Bool
  | some s => !s.isEmpty
  | none => false

/-- Whitespace test standing for the regex class `\s`. -/
def isWS (c : Char) : Bool := c.isWhitespace

/-- Python `str.strip()`. -/
def strip (s : List Char) : List Char :=
  ((s.dropWhile isWS).reverse.dropWhile isWS).reverse

/-- Helper for `splitWs`: walks the text carrying the current word reversed. -/
def splitWsGo : List Char → List Char → List (List Char)
  | [], [] => []
  | [], cur => [cur.reverse]
  | c :: cs, cur =>
    if isWS c then
      if cur.isEmpty then splitWsGo cs [] else cur.reverse :: splitWsGo cs []
    else splitWsGo cs (c :: cur)

/-- Python `str.split()` (split on whitespace runs, dropping empties). -/
def splitWs (s : List Char) : List (List Char) := splitWsGo s []

/-- Python `a in b` on strings: substring test. -/
def isSubstr (a b : List Char) : Bool := decide (a <:+: b)

/-- `' '.join` of a list of words. -/
def joinSpace : List (List Char) → List Char
  | [] => []
  | [w] => w
  | w :: ws => w ++ [' '] ++ joinSpace ws

/-- Numeric value of a digit run (regex capture `(\d+)` parsed by `int`). -/
def natOfDigits (ds : List Char) : Nat :=
  ds.foldl (fun n c => 10 * n + (c.toNat - 48)) 0

/-!  ## Benchmark Scorer (`app/utils/benchmark_calculator.py`) -/

/-- The four scores returned by every calculator. -/
structure Scores where
  benchmark_score : ℚ
  gaming_score : ℚ
  productivity_score : ℚ
  ai_score : ℚ
  deriving DecidableEq, Repr

/-- One row of the `CPU_SCORES` / `GPU_SCORES` lookup tables. -/
structure Tier where
  base : ℚ
  gaming : ℚ
  productivity : ℚ
  ai : ℚ
  deriving DecidableEq, Repr

/-- `CPU_SCORES` table, in source order. -/
def CPU_SCORES : List (List Char × Tier) :=
  [("i9".toList, ⟨90, 85, 95, 80⟩),
   ("i7".toList, ⟨75, 80, 85, 70⟩),
   ("i5".toList, ⟨60, 70, 70, 55⟩),
   ("i3".toList, ⟨40, 50, 50, 35⟩),
   ("ryzen 9".toList, ⟨92, 88, 98, 85⟩),
   ("ryzen 7".toList, ⟨78, 82, 88, 75⟩),
   ("ryzen 5".toList, ⟨65, 72, 75, 60⟩),
   ("ryzen 3".toList, ⟨45, 55, 55, 40⟩)]

/-- `GPU_SCORES` table, in source order. -/
def GPU_SCORES : List (List Char × Tier) :=
  [("rtx 4090".toList, ⟨100, 100, 95, 100⟩),
   ("rtx 4080".toList, ⟨90, 95, 90, 95⟩),
   ("rtx 4070".toList, ⟨75, 85, 75, 80⟩),
   ("rtx 4060".toList, ⟨60, 70, 60, 65⟩),
   ("rtx 3090".toList, ⟨95, 95, 90, 98⟩),
   ("rtx 3080".toList, ⟨85, 90, 85, 90⟩),
   ("rtx 3070".toList, ⟨70, 80, 70, 75⟩),
   ("rtx 3060".toList, ⟨55, 65, 55, 60⟩),
   ("gtx 1660".toList, ⟨40, 50, 35, 30⟩),
   ("gtx 1650".toList, ⟨30, 40, 25, 20⟩),
   ("rx 7900".toList, ⟨88, 92, 85, 75⟩),
   ("rx 7800".toList, ⟨75, 82, 70, 60⟩),
   ("rx 7700".toList, ⟨65, 72, 60, 50⟩),
   ("rx 6600".toList, ⟨50, 60, 45, 35⟩),
   ("rx 6500".toList, ⟨35, 45, 30, 25⟩)]

/-- The `for key, scores in TABLE.items(): if key in name_lower: ...; break`
loop: first table key that is a substring of the name wins, else default. -/
def lookupTier : List (List Char × Tier) → List Char → Tier → Tier
  | [], _, dflt => dflt
  | (k, t) :: rest, nm, dflt =>
    if isSubstr k nm then t else lookupTier rest nm dflt

/-- The attribute map as read by the calculators: each field stands for
`specs.get(key, 0)` (numeric keys) or the string key with `""`/absence
collapsed (string keys, only ever compared to or searched for literals). -/
structure Specs where
  cores : ℚ := 0
  threads : ℚ := 0
  base_clock_ghz : ℚ := 0
  vram_gb : ℚ := 0
  memory_type : List Char := []
  capacity_gb : ℚ := 0
  ram_speed : ℚ := 0
  ram_type : List Char := []
  type : List Char := []
  wattage : ℚ := 0
  efficiency : List Char := []
  deriving DecidableEq, Repr

/-- A valid attribute map: numeric attributes are non-negative (counts,
clock speeds, capacities and wattages extracted from listings). -/
def Specs.Valid (s : Specs) : Prop :=
  0 ≤ s.cores ∧ 0 ≤ s.threads ∧ 0 ≤ s.base_clock_ghz ∧ 0 ≤ s.vram_gb ∧
    0 ≤ s.capacity_gb ∧ 0 ≤ s.ram_speed ∧ 0 ≤ s.wattage

instance (s : Specs) : Decidable s.Valid := by
  unfold Specs.Valid; infer_instance

/-- `calculate_cpu_scores`. -/
def calculate_cpu_scores (name : List Char) (specs : Specs) : Scores :=
  let t := lookupTier CPU_SCORES (lower name) ⟨50, 50, 50, 45⟩
  let cores := specs.cores
  let clock := specs.base_clock_ghz
  let productivity_score :=
    t.productivity + (if 0 < cores then min (cores * 2) 20 else 0)
  let ai_score := t.ai + (if 0 < cores then min (cores * 1.5) 15 else 0)
  let gaming_score :=
    t.gaming + (if 0 < clock then min ((clock - 3.0) * 10) 15 else 0)
  { benchmark_score := min t.base 100
    gaming_score := min gaming_score 100
    productivity_score := min productivity_score 100
    ai_score := min ai_score 100 }

/-- `calculate_gpu_scores`. -/
def calculate_gpu_scores (name : List Char) (specs : Specs) : Scores :=
  let t := lookupTier GPU_SCORES (lower name) ⟨40, 45, 40, 35⟩
  let vram := specs.vram_gb
  let ai_score := t.ai +
    (if 24 ≤ vram then 20 else if 16 ≤ vram then 15
     else if 12 ≤ vram then 10 else if 8 ≤ vram then 5 else 0)
  let gaming_score := t.gaming +
    (if specs.memory_type = "GDDR6X".toList then 5 else 0)
  let ai_score := ai_score +
    (if specs.memory_type = "GDDR6X".toList then 5 else 0)
  { benchmark_score := min t.base 100
    gaming_score := min gaming_score 100
    productivity_score := min t.productivity 100
    ai_score := min ai_score 100 }

/-- `calculate_ram_scores`. -/
def calculate_ram_scores (_name : List Char) (specs : Specs) : Scores :=
  let capacity := specs.capacity_gb
  let speed := specs.ram_speed
  let base0 : ℚ := min (capacity / 32 * 100) 100
  let base_score :=
    base0 + (if specs.ram_type = "DDR5".toList then 10
             else if specs.ram_type = "DDR4".toList ∧ 3600 ≤ speed then 5
             else 0)
  let productivity_score : ℚ := min (capacity / 16 * 100) 100
  let ai_score : ℚ := min (capacity / 32 * 100) 100
  { benchmark_score := min base_score 100
    gaming_score := min (base_score * 0.3) 100
    productivity_score := min productivity_score 100
    ai_score := min ai_score 100 }

/-- `calculate_storage_scores`. -/
def calculate_storage_scores (_name : List Char) (specs : Specs) : Scores :=
  let capacity := specs.capacity_gb
  let base0 : ℚ :=
    if isSubstr "NVMe".toList specs.type then 80
    else if isSubstr "SSD".toList specs.type then 60
    else 40
  let base_score :=
    base0 + (if 2000 ≤ capacity then 10 else if 1000 ≤ capacity then 5 else 0)
  { benchmark_score := min base_score 100
    gaming_score := min (base_score * 0.8) 100
    productivity_score := min base_score 100
    ai_score := min (base_score * 0.7) 100 }

/-- `calculate_psu_scores`. -/
def calculate_psu_scores (_name : List Char) (specs : Specs) : Scores :=
  let wattage := specs.wattage
  let base0 : ℚ :=
    if 1000 ≤ wattage then 90 else if 750 ≤ wattage then 80
    else if 650 ≤ wattage then 70 else if 550 ≤ wattage then 60 else 50
  let base_score :=
    base0 + (if isSubstr "Titanium".toList specs.efficiency then 10
             else if isSubstr "Platinum".toList specs.efficiency then 8
             else if isSubstr "Gold".toList specs.efficiency then 5
             else if isSubstr "Bronze".toList specs.efficiency then 2
             else 0)
  { benchmark_score := min base_score 100
    gaming_score := min base_score 100
    productivity_score := min base_score 100
    ai_score := min base_score 100 }

/-- `calculate_benchmark_scores`: dispatch on the lowercased category,
with a fixed neutral tuple for unknown categories. -/
def calculate_benchmark_scores (component_type name : List Char)
    (specs : Specs) : Scores :=
  if lower component_type = "cpu".toList then calculate_cpu_scores name specs
  else if lower component_type = "gpu".toList then calculate_gpu_scores name specs
  else if lower component_type = "ram".toList then calculate_ram_scores name specs
  else if lower component_type = "storage".toList then
    calculate_storage_scores name specs
  else if lower component_type = "psu".toList then calculate_psu_scores name specs
  else { benchmark_score := 50, gaming_score := 50
         productivity_score := 50, ai_score := 50 }

/-!  ## GPU Specification Extractor (`app/utils/spec_extractor.py`) -/

/-- Matches the tail of a pattern of the form `\s*lit₁\s*lit₂…` against `r`. -/
def matchLits : List (List Char) → List Char → Bool
  | [], _ => true
  | lit :: ls, r =>
    let r2 := r.dropWhile isWS
    if lit.isPrefixOf r2 then matchLits ls (r2.drop lit.length) else false

/-- Tries the pattern `(\d+)\s*lit₁\s*lit₂…` anchored at the start of `l`,
returning the captured number.  (Maximal munch on `\d+` is exact here: every
continuation starts with a non-digit literal, so no backtracking can occur.) -/
def numPatAt (lits : List (List Char)) (l : List Char) : Option Nat :=
  let ds := l.takeWhile Char.isDigit
  if ds.isEmpty then none
  else if matchLits lits (l.dropWhile Char.isDigit) then some (natOfDigits ds)
  else none

/-- `re.search` for a `(\d+)\s*lit…` pattern: leftmost match wins. -/
def searchNumPat (lits : List (List Char)) : List Char → Option Nat
  | [] => none
  | c :: cs =>
    match numPatAt lits (c :: cs) with
    | some n => some n
    | none => searchNumPat lits cs

/-- The `for pattern in vram_patterns` loop: first pattern with a match wins. -/
def firstNumPat : List (List (List Char)) → List Char → Option Nat
  | [], _ => none
  | p :: ps, text =>
    match searchNumPat p text with
    | some n => some n
    | none => firstNumPat ps text

/-- Output of `extract_gpu_specs`: present keys of the returned dict. -/
structure GpuSpecs where
  vram_gb : Option Nat := none
  memory_type : Option (List Char) := none
  tdp_watts : Option Nat := none
  deriving DecidableEq, Repr

/-- `extract_gpu_specs`: VRAM via the three ordered patterns
(`(\d+)\s*gb\s*vram`, `(\d+)\s*gb\s*gddr`, `(\d+)\s*go`), memory type via the
`gddr6`/`gd6` → `gddr6x` → `gddr5` substring cascade, TDP via
`(\d+)\s*w(atts?)?`. -/
def extract_gpu_specs (name description : List Char) : GpuSpecs :=
  let text := lower (name ++ [' '] ++ description)
  let vram := firstNumPat
    [["gb".toList, "vram".toList], ["gb".toList, "gddr".toList], ["go".toList]]
    text
  let memory_type :=
    if isSubstr "gddr6".toList text || isSubstr "gd6".toList text then
      some "GDDR6".toList
    else if isSubstr "gddr6x".toList text then some "GDDR6X".toList
    else if isSubstr "gddr5".toList text then some "GDDR5".toList
    else none
  let tdp := searchNumPat ["w".toList] text
  { vram_gb := vram, memory_type := memory_type, tdp_watts := tdp }

/-- A `GpuSpecs` dict as the benchmark calculator reads it
(`specs.get("vram_gb", 0)`, `specs.get("memory_type")`). -/
def GpuSpecs.toSpecs (g : GpuSpecs) : Specs :=
  { vram_gb := (g.vram_gb.getD 0 : ℕ), memory_type := g.memory_type.getD [] }

/-- `calculate_gpu_scores` with the lines guarded by
`specs.get("memory_type") == "GDDR6X"` removed: the scorer as it behaves when
the GDDR6X gaming/AI bonus is never triggered. -/
def calculate_gpu_scores_sans_g6x_bonus (name : List Char) (specs : Specs) :
    Scores :=
  let t := lookupTier GPU_SCORES (lower name) ⟨40, 45, 40, 35⟩
  let vram := specs.vram_gb
  let ai_score := t.ai +
    (if 24 ≤ vram then 20 else if 16 ≤ vram then 15
     else if 12 ≤ vram then 10 else if 8 ≤ vram then 5 else 0)
  { benchmark_score := min t.base 100
    gaming_score := min t.gaming 100
    productivity_score := min t.productivity 100
    ai_score := min ai_score 100 }

/-!  ## Name Normalizer (`app/utils/name_parser.py`) -/

/-- The `MANUFACTURERS` dict in Python dict-literal order (a duplicated key
keeps its first position; all duplicates in the source carry equal values). -/
def MANUFACTURERS : List (List Char × List Char) :=
  [("intel".toList, "Intel".toList),
   ("amd".toList, "AMD".toList),
   ("ryzen".toList, "AMD".toList),
   ("core".toList, "Intel".toList),
   ("pentium".toList, "Intel".toList),
   ("celeron".toList, "Intel".toList),
   ("threadripper".toList, "AMD".toList),
   ("epyc".toList, "AMD".toList),
   ("nvidia".toList, "NVIDIA".toList),
   ("geforce".toList, "NVIDIA".toList),
   ("rtx".toList, "NVIDIA".toList),
   ("gtx".toList, "NVIDIA".toList),
   ("gt".toList, "NVIDIA".toList),
   ("radeon".toList, "AMD".toList),
   ("rx".toList, "AMD".toList),
   ("asus".toList, "ASUS".toList),
   ("msi".toList, "MSI".toList),
   ("gigabyte".toList, "Gigabyte".toList),
   ("asrock".toList, "ASRock".toList),
   ("evga".toList, "EVGA".toList),
   ("biostar".toList, "Biostar".toList),
   ("corsair".toList, "Corsair".toList),
   ("g.skill".toList, "G.Skill".toList),
   ("kingston".toList, "Kingston".toList),
   ("crucial".toList, "Crucial".toList),
   ("samsung".toList, "Samsung".toList),
   ("hyperx".toList, "HyperX".toList),
   ("team".toList, "Team Group".toList),
   ("patriot".toList, "Patriot".toList),
   ("western digital".toList, "Western Digital".toList),
   ("wd".toList, "Western Digital".toList),
   ("seagate".toList, "Seagate".toList),
   ("sandisk".toList, "SanDisk".toList),
   ("adata".toList, "ADATA".toList),
   ("seasonic".toList, "Seasonic".toList),
   ("be quiet".toList, "be quiet!".toList),
   ("cooler master".toList, "Cooler Master".toList),
   ("thermaltake".toList, "Thermaltake".toList),
   ("antec".toList, "Antec".toList),
   ("nzxt".toList, "NZXT".toList),
   ("fractal design".toList, "Fractal Design".toList),
   ("lian li".toList, "Lian Li".toList),
   ("phanteks".toList, "Phanteks".toList)]

/-- Alternatives of the CPU model pattern
`(?:Intel|AMD|Ryzen|Core|Pentium|Celeron|Threadripper|EPYC)`, in order,
lowercased for the case-insensitive comparison. -/
def CPU_ALTS : List (List Char) :=
  ["intel".toList, "amd".toList, "ryzen".toList, "core".toList,
   "pentium".toList, "celeron".toList, "threadripper".toList, "epyc".toList]

/-- The character class `[A-Za-z0-9\-\s]`. -/
def isCpuClass (c : Char) : Bool :=
  (decide ('A' ≤ c) && decide (c ≤ 'Z')) ||
  (decide ('a' ≤ c) && decide (c ≤ 'z')) ||
  (decide ('0' ≤ c) && decide (c ≤ '9')) || c = '-' || isWS c

/-- Matches `\s+([A-Za-z0-9\-\s]+)` at the start of `r`, returning group 1.
Greedy `\s+` takes the whole whitespace run; since the class contains `\s`,
the only backtracking case is a run followed by no class character, where the
group degenerates to the run's last whitespace character. -/
def matchCpuAfterAlt (r : List Char) : Option (List Char) :=
  let w := r.takeWhile isWS
  if w.isEmpty then none
  else
    let g := (r.dropWhile isWS).takeWhile isCpuClass
    if !g.isEmpty then some g
    else if 2 ≤ w.length then some ((w.getLast?).toList)
    else none

/-- Tries the CPU pattern's alternatives, in order, at one position. -/
def matchCpuAt (l : List Char) : List (List Char) → Option (List Char)
  | [] => none
  | alt :: rest =>
    if lower (l.take alt.length) = alt then
      match matchCpuAfterAlt (l.drop alt.length) with
      | some g => some g
      | none => matchCpuAt l rest
    else matchCpuAt l rest

/-- `re.search` of the CPU model pattern: leftmost position wins. -/
def cpuModelSearch : List Char → Option (List Char)
  | [] => none
  | c :: cs =>
    match matchCpuAt (c :: cs) CPU_ALTS with
    | some g => some g
    | none => cpuModelSearch cs

/-- The fallback blacklist `['new', 'used', 'occasion', 'dzd', 'da', 'algeria']`. -/
def STOPWORDS : List (List Char) :=
  ["new".toList, "used".toList, "occasion".toList, "dzd".toList,
   "da".toList, "algeria".toList]

/-- `parse_component_name` at `component_type = "cpu"`: manufacturer by first
lexicon key occurring in the lowercased title, model by the CPU regex
(stripped), with the word-based fallback and the `model or name[:100]` last
resort. -/
def parse_component_name_cpu (name : List Char) :
    Option (List Char) × Option (List Char) :=
  if name.isEmpty then (none, none)
  else
    let nl := lower name
    let manufacturer := (MANUFACTURERS.find? fun p => isSubstr p.1 nl).map (·.2)
    let model0 := (cpuModelSearch name).map strip
    let model1 :=
      if truthyS model0 then model0
      else
        let filtered := (splitWs name).filter fun w => !STOPWORDS.contains (lower w)
        if 1 < filtered.length then some (joinSpace ((filtered.drop 1).take 2))
        else model0
    let model2 := if truthyS model1 then model1 else some (name.take 100)
    (manufacturer, model2)

/-!  ## Compatibility Checker and Build Scorer (`app/agent/tools.py`) -/

/-- `ComponentType` (the `case` member is spelled `caseC`, `case` being a
Lean keyword). -/
inductive CompType
  | cpu | gpu | motherboard | ram | storage | psu | caseC | cooling
  deriving DecidableEq, Repr

/-- A catalog row as read by `check_compatibility` / `rate_performance`:
the columns those tools touch.  The JSON `specs` bag is modelled with the
numeric values those tools read (`wattage`, `capacity_gb`). -/
structure Component where
  id : Nat
  component_type : CompType
  socket_type : Option (List Char) := none
  ram_type : Option (List Char) := none
  tdp_watts : Option ℚ := none
  form_factor : Option (List Char) := none
  specs : Option (List (List Char × ℚ)) := none
  gaming_score : Option ℚ := none
  productivity_score : Option ℚ := none
  ai_score : Option ℚ := none
  deriving DecidableEq, Repr

/-- `comp_map = {comp.component_type.value: comp for comp in components}`:
for each type, the last component of that type wins. -/
def compMap (components : List Component) (t : CompType) : Option Component :=
  (components.filter fun c => c.component_type = t).getLast?

inductive Severity | critical | warning
  deriving DecidableEq, Repr

inductive IssueKind
  | socket_mismatch | ram_type_mismatch | insufficient_psu | form_factor_mismatch
  deriving DecidableEq, Repr

/-- An entry of the `issues` list (severity and kind; the interpolated
description string is presentation only and elided). -/
structure Issue where
  severity : Severity
  kind : IssueKind
  deriving DecidableEq, Repr

/-- `psu.specs.get("wattage", 0) if psu.specs else 0`. -/
def psuWattage (psu : Component) : ℚ :=
  match psu.specs with
  | some bag => (bag.lookup "wattage".toList).getD 0
  | none => 0

/-- The non-PSU TDP sum computed for the PSU-wattage rule
(`sum(comp.tdp_watts or 0 for comp in components if comp.component_type != ComponentType.PSU)`). -/
def nonPsuTdp (components : List Component) : ℚ :=
  ((components.filter fun c => c.component_type ≠ CompType.psu).map
    fun c => c.tdp_watts.getD 0).sum

/-- `sum(comp.tdp_watts or 0 for comp in components)`: the sum reported as
`total_tdp_watts`. -/
def allTdp (components : List Component) : ℚ :=
  (components.map fun c => c.tdp_watts.getD 0).sum

/-- The checker's mutable state: the `issues` list and the `compatible` flag. -/
abbrev CheckState := List Issue × Bool

/-- The CPU-socket vs motherboard-socket block. -/
def checkSocket (components : List Component) (st : CheckState) : CheckState :=
  match compMap components CompType.cpu, compMap components CompType.motherboard with
  | some cpu, some mobo =>
    if truthyS cpu.socket_type && truthyS mobo.socket_type then
      if cpu.socket_type ≠ mobo.socket_type then
        (st.1 ++ [⟨Severity.critical, IssueKind.socket_mismatch⟩], false)
      else st
    else st
  | _, _ => st

/-- The RAM-type vs motherboard RAM-type block. -/
def checkRam (components : List Component) (st : CheckState) : CheckState :=
  match compMap components CompType.ram, compMap components CompType.motherboard with
  | some ram, some mobo =>
    if truthyS ram.ram_type && truthyS mobo.ram_type then
      if ram.ram_type ≠ mobo.ram_type then
        (st.1 ++ [⟨Severity.critical, IssueKind.ram_type_mismatch⟩], false)
      else st
    else st
  | _, _ => st

/-- The PSU-wattage block: a warning only, `compatible` untouched. -/
def checkPsu (components : List Component) (st : CheckState) : CheckState :=
  match compMap components CompType.psu with
  | some psu =>
    if psuWattage psu < nonPsuTdp components * 1.3 then
      (st.1 ++ [⟨Severity.warning, IssueKind.insufficient_psu⟩], st.2)
    else st
  | none => st

/-- The form-factor block: `if mobo.form_factor not in case.form_factor`,
a Python substring test on the two string columns. -/
def checkFormFactor (components : List Component) (st : CheckState) : CheckState :=
  match compMap components CompType.motherboard, compMap components CompType.caseC with
  | some mobo, some cs =>
    if truthyS mobo.form_factor && truthyS cs.form_factor then
      if !isSubstr (mobo.form_factor.getD []) (cs.form_factor.getD []) then
        (st.1 ++ [⟨Severity.critical, IssueKind.form_factor_mismatch⟩], false)
      else st
    else st
  | _, _ => st

structure CompatResult where
  compatible : Bool
  compatibility_score : ℚ
  issues : List Issue
  total_tdp_watts : ℚ
  deriving DecidableEq, Repr

/-- The pure body of `check_compatibility` after the components are loaded:
the four rule blocks run in source order over the shared state. -/
def compatCheck (components : List Component) : CompatResult :=
  let st0 : CheckState := ([], true)
  let st1 := checkSocket components st0
  let st2 := checkRam components st1
  let st3 := checkPsu components st2
  let st4 := checkFormFactor components st3
  { compatible := st4.2
    compatibility_score := if st4.2 then 100 else if !st4.1.isEmpty then 50 else 100
    issues := st4.1
    total_tdp_watts := allTdp components }

/-- `check_compatibility`: loads the rows whose id is among the requested
ids and fails when the counts differ (`"Error: Some component IDs not found"`). -/
def check_compatibility (catalog : List Component) (component_ids : List Nat) :
    Except (List Char) CompatResult :=
  let components := catalog.filter fun c => component_ids.contains c.id
  if components.length ≠ component_ids.length then
    Except.error "Error: Some component IDs not found".toList
  else
    Except.ok (compatCheck components)

/-- The `all_scores` dict of `rate_performance`. -/
structure AllScores where
  gaming : ℚ
  productivity : ℚ
  ai_ml : ℚ
  overall : ℚ
  deriving DecidableEq, Repr

structure RateResult where
  use_case : List Char
  use_case_score : ℚ
  all_scores : AllScores
  rating : List Char
  deriving DecidableEq, Repr

/-- `ram.specs.get("capacity_gb", 0) if ram.specs else 0`. -/
def ramCapacity (ram : Component) : ℚ :=
  match ram.specs with
  | some bag => (bag.lookup "capacity_gb".toList).getD 0
  | none => 0

/-- `rate_performance`: accumulates GPU, CPU and RAM contributions into the
use-case aggregates; note it loads whatever rows match the requested ids and
performs no not-found check. -/
def rate_performance (catalog : List Component) (component_ids : List Nat)
    (use_case : List Char) : RateResult :=
  let components := catalog.filter fun c => component_ids.contains c.id
  let acc0 : ℚ × ℚ × ℚ := (0, 0, 0)
  let acc1 :=
    match compMap components CompType.gpu with
    | some gpu =>
      (acc0.1 + gpu.gaming_score.getD 0 * 0.6,
       acc0.2.1 + gpu.ai_score.getD 0 * 0.7,
       acc0.2.2 + gpu.productivity_score.getD 0 * 0.3)
    | none => acc0
  let acc2 :=
    match compMap components CompType.cpu with
    | some cpu =>
      (acc1.1 + cpu.gaming_score.getD 0 * 0.3,
       acc1.2.1 + cpu.ai_score.getD 0 * 0.2,
       acc1.2.2 + cpu.productivity_score.getD 0 * 0.5)
    | none => acc1
  let acc3 :=
    match compMap components CompType.ram with
    | some ram =>
      let ram_score := min (ramCapacity ram / 32 * 100) 100
      (acc2.1, acc2.2.1 + ram_score * 0.1, acc2.2.2 + ram_score * 0.2)
    | none => acc2
  let gaming := acc3.1
  let ai_ml := acc3.2.1
  let productivity := acc3.2.2
  let overall := gaming * 0.33 + productivity * 0.33 + ai_ml * 0.34
  let use_case_score :=
    if use_case = "gaming".toList then gaming
    else if use_case = "productivity".toList then productivity
    else if use_case = "ai_ml".toList then ai_ml
    else if use_case = "overall".toList then overall
    else overall
  { use_case := use_case
    use_case_score := use_case_score
    all_scores := ⟨gaming, productivity, ai_ml, overall⟩
    rating :=
      if 80 ≤ use_case_score then "excellent".toList
      else if 60 ≤ use_case_score then "good".toList
      else "fair".toList }

/-!  ## Catalog Upsert Engine and staleness sweep (`app/tasks/scraper_tasks.py`) -/

/-- A JSON value in the `specs` bag. -/
inductive SpecVal
  | num (q : ℚ)
  | str (s : List Char)
  | strs (l : List (List Char))
  deriving DecidableEq, Repr

/-- Python truthiness of an optional bag value (`if socket_type:` …). -/
def truthySV : Option SpecVal → Bool
  | some (.num q) => decide (q ≠ 0)
  | some (.str s) => !s.isEmpty
  | some (.strs l) => !l.isEmpty
  | none => false

/-- A stored catalog record: the fields the update branch of
`scrape_component_type` touches, plus the staleness-sweep fields.
Timestamps are rationals (hours). -/
structure StoredComponent where
  in_stock : Bool
  last_scraped_at : ℚ
  price_dzd : ℚ
  manufacturer : Option (List Char)
  model : Option (List Char)
  specs : List (List Char × SpecVal)
  benchmark_score : Option ℚ
  gaming_score : Option ℚ
  productivity_score : Option ℚ
  ai_score : Option ℚ
  socket_type : Option SpecVal
  ram_type : Option SpecVal
  ram_speed : Option SpecVal
  tdp_watts : Option SpecVal
  form_factor : Option SpecVal
  deriving DecidableEq, Repr

/-- `x or existing.field` for a freshly computed score: a zero score is
falsy, so the stored value is kept. -/
def mergeScore (new : ℚ) (old : Option ℚ) : Option ℚ :=
  if new ≠ 0 then some new else old

/-- The `if existing:` update branch of `scrape_component_type`, applied to
a stored record matching the incoming listing by (name, price). -/
def upsert_update (existing : StoredComponent) (now price : ℚ)
    (name_manufacturer name_model : Option (List Char))
    (specs : List (List Char × SpecVal)) (scores : Scores) : StoredComponent :=
  let socket_type := specs.lookup "socket_type".toList
  let ram_type := specs.lookup "ram_type".toList
  let ram_speed := specs.lookup "ram_speed".toList
  let tdp_watts := specs.lookup "tdp_watts".toList
  let form_factor := specs.lookup "form_factor".toList
  { in_stock := true
    last_scraped_at := now
    price_dzd := price
    manufacturer :=
      if truthyS name_manufacturer then name_manufacturer else existing.manufacturer
    model := if truthyS name_model then name_model else existing.model
    specs := if !specs.isEmpty then specs else existing.specs
    benchmark_score := mergeScore scores.benchmark_score existing.benchmark_score
    gaming_score := mergeScore scores.gaming_score existing.gaming_score
    productivity_score :=
      mergeScore scores.productivity_score existing.productivity_score
    ai_score := mergeScore scores.ai_score existing.ai_score
    socket_type := if truthySV socket_type then socket_type else existing.socket_type
    ram_type := if truthySV ram_type then ram_type else existing.ram_type
    ram_speed := if truthySV ram_speed then ram_speed else existing.ram_speed
    tdp_watts := if truthySV tdp_watts then tdp_watts else existing.tdp_watts
    form_factor := if truthySV form_factor then form_factor else existing.form_factor }

/-- `mark_out_of_stock`: flips `in_stock` on components last scraped strictly
more than 48 hours before `now`; deletes nothing. -/
def mark_out_of_stock (catalog : List StoredComponent) (now : ℚ) :
    List StoredComponent :=
  catalog.map fun c =>
    if c.last_scraped_at < now - 48 ∧ c.in_stock = true then
      { c with in_stock := false }
    else c

/-!  ## Helper lemmas -/

/-- Substring transitivity specialised to the embedding's Boolean test. -/
lemma isSubstr_trans_fixed {a b text : List Char} (hab : a <:+: b)
    (h : isSubstr b text = true) : isSubstr a text = true := by
  unfold isSubstr at h ⊢
  exact decide_eq_true (hab.trans (of_decide_eq_true h))

/-- A property holding of a lookup table's rows and of the default holds of
the lookup result. -/
lemma lookupTier_prop (P : Tier → Prop) :
    ∀ (table : List (List Char × Tier)) (nm : List Char) (dflt : Tier),
      P dflt → (∀ p ∈ table, P p.2) → P (lookupTier table nm dflt)
  | [], _, _, hd, _ => hd
  | (k, t) :: rest, nm, dflt, hd, hall => by
    unfold lookupTier
    split_ifs with h
    · exact hall _ (List.mem_cons_self _ _)
    · exact lookupTier_prop P rest nm dflt hd
        fun p hp => hall p (List.mem_cons_of_mem _ hp)

/-- A score lies in the clamp interval. -/
def InRange (x : ℚ) : Prop := 0 ≤ x ∧ x ≤ 100

instance (x : ℚ) : Decidable (InRange x) := by unfold InRange; infer_instance

/-- All four scores lie in `[0, 100]`. -/
def Scores.InRange01 (s : Scores) : Prop :=
  InRange s.benchmark_score ∧ InRange s.gaming_score ∧
    InRange s.productivity_score ∧ InRange s.ai_score

instance (s : Scores) : Decidable s.InRange01 := by
  unfold Scores.InRange01; infer_instance

lemma cpu_scores_in_range (name : List Char) (specs : Specs)
    (h : specs.Valid) : (calculate_cpu_scores name specs).InRange01 := by
  obtain ⟨hc, -, hclk, -, -, -, -⟩ := h
  have ht := lookupTier_prop
    (fun t => 40 ≤ t.base ∧ 50 ≤ t.gaming ∧ 50 ≤ t.productivity ∧ 35 ≤ t.ai)
    CPU_SCORES (lower name) ⟨50, 50, 50, 45⟩ (by norm_num) (by decide)
  obtain ⟨hb, hg, hp, ha⟩ := ht
  unfold calculate_cpu_scores Scores.InRange01 InRange
  refine ⟨⟨le_min (by linarith) (by norm_num), min_le_right _ _⟩,
    ⟨le_min ?_ (by norm_num), min_le_right _ _⟩,
    ⟨le_min ?_ (by norm_num), min_le_right _ _⟩,
    ⟨le_min ?_ (by norm_num), min_le_right _ _⟩⟩
  · split_ifs with h0
    · have : (-30 : ℚ) ≤ min ((specs.base_clock_ghz - 3.0) * 10) 15 :=
        le_min (by norm_num; linarith) (by norm_num)
      linarith
    · linarith
  · split_ifs with h0
    · have : (0 : ℚ) ≤ min (specs.cores * 2) 20 :=
        le_min (by linarith) (by norm_num)
      linarith
    · linarith
  · split_ifs with h0
    · have : (0 : ℚ) ≤ min (specs.cores * 1.5) 15 :=
        le_min (by positivity) (by norm_num)
      linarith
    · linarith

lemma gpu_scores_in_range (name : List Char) (specs : Specs)
    (_h : specs.Valid) : (calculate_gpu_scores name specs).InRange01 := by
  have ht := lookupTier_prop
    (fun t => 30 ≤ t.base ∧ 40 ≤ t.gaming ∧ 25 ≤ t.productivity ∧ 20 ≤ t.ai)
    GPU_SCORES (lower name) ⟨40, 45, 40, 35⟩ (by norm_num) (by decide)
  obtain ⟨hb, hg, hp, ha⟩ := ht
  unfold calculate_gpu_scores Scores.InRange01 InRange
  refine ⟨⟨le_min (by linarith) (by norm_num), min_le_right _ _⟩,
    ⟨le_min ?_ (by norm_num), min_le_right _ _⟩,
    ⟨le_min (by linarith) (by norm_num), min_le_right _ _⟩,
    ⟨le_min ?_ (by norm_num), min_le_right _ _⟩⟩
  · split_ifs <;> linarith
  · split_ifs <;> linarith

lemma ram_scores_in_range (name : List Char) (specs : Specs)
    (h : specs.Valid) : (calculate_ram_scores name specs).InRange01 := by
  obtain ⟨-, -, -, -, hcap, -, -⟩ := h
  have hbase : (0 : ℚ) ≤ min (specs.capacity_gb / 32 * 100) 100 :=
    le_min (by positivity) (by norm_num)
  have hprod : (0 : ℚ) ≤ min (specs.capacity_gb / 16 * 100) 100 :=
    le_min (by positivity) (by norm_num)
  unfold calculate_ram_scores Scores.InRange01 InRange
  refine ⟨⟨le_min ?_ (by norm_num), min_le_right _ _⟩,
    ⟨le_min ?_ (by norm_num), min_le_right _ _⟩,
    ⟨le_min hprod (by norm_num), min_le_right _ _⟩,
    ⟨le_min hbase (by norm_num), min_le_right _ _⟩⟩
  · split_ifs <;> linarith
  · split_ifs <;> nlinarith

lemma storage_scores_in_range (name : List Char) (specs : Specs)
    (_h : specs.Valid) : (calculate_storage_scores name specs).InRange01 := by
  unfold calculate_storage_scores Scores.InRange01 InRange
  refine ⟨⟨le_min ?_ (by norm_num), min_le_right _ _⟩,
    ⟨le_min ?_ (by norm_num), min_le_right _ _⟩,
    ⟨le_min ?_ (by norm_num), min_le_right _ _⟩,
    ⟨le_min ?_ (by norm_num), min_le_right _ _⟩⟩ <;>
  · split_ifs <;> norm_num

lemma psu_scores_in_range (name : List Char) (specs : Specs)
    (_h : specs.Valid) : (calculate_psu_scores name specs).InRange01 := by
  unfold calculate_psu_scores Scores.InRange01 InRange
  refine ⟨⟨le_min ?_ (by norm_num), min_le_right _ _⟩,
    ⟨le_min ?_ (by norm_num), min_le_right _ _⟩,
    ⟨le_min ?_ (by norm_num), min_le_right _ _⟩,
    ⟨le_min ?_ (by norm_num), min_le_right _ _⟩⟩ <;>
  · split_ifs <;> norm_num

/-- C1: for every category, name and valid attribute map, all four scores
returned by the Benchmark Scorer lie in `[0, 100]`, the final clamp holding
even after the additive bonuses. -/
theorem benchmark_scores_in_range (component_type name : List Char)
    (specs : Specs) (h : specs.Valid) :
    (calculate_benchmark_scores component_type name specs).InRange01 := by
  unfold calculate_benchmark_scores
  split_ifs
  · exact cpu_scores_in_range name specs h
  · exact gpu_scores_in_range name specs h
  · exact ram_scores_in_range name specs h
  · exact storage_scores_in_range name specs h
  · exact psu_scores_in_range name specs h
  · exact ⟨⟨by norm_num, by norm_num⟩, ⟨by norm_num, by norm_num⟩,
      ⟨by norm_num, by norm_num⟩, ⟨by norm_num, by norm_num⟩⟩

/-- Witness for C1: a CPU listing with a low clock (the clock adjustment is
negative there) and many cores still scores within `[0, 100]`. -/
theorem benchmark_scores_in_range_witness :
    ({ cores := 16, base_clock_ghz := 1 : Specs }).Valid ∧
      (calculate_benchmark_scores "cpu".toList "AMD Ryzen 9 7945HX".toList
        { cores := 16, base_clock_ghz := 1 }).InRange01 :=
  ⟨by decide,
   benchmark_scores_in_range "cpu".toList "AMD Ryzen 9 7945HX".toList
     { cores := 16, base_clock_ghz := 1 } (by decide)⟩


lemma extract_gpu_memory_type_cases (name description : List Char) :
    (extract_gpu_specs name description).memory_type = some "GDDR6".toList ∨
    (extract_gpu_specs name description).memory_type = some "GDDR5".toList ∨
    (extract_gpu_specs name description).memory_type = none := by
  unfold extract_gpu_specs
  dsimp only
  split_ifs with h1 h2 h3
  · left; rfl
  · exfalso
    have h6 : isSubstr "gddr6".toList (lower (name ++ [' '] ++ description)) = true :=
      isSubstr_trans_fixed (by decide) h2
    simp at h1 h6
    simp [h1.1] at h6
  · right; left; rfl
  · right; right; rfl

lemma gpu_scores_eq_sans_of_not_g6x (name : List Char) (specs : Specs)
    (h : specs.memory_type ≠ "GDDR6X".toList) :
    calculate_gpu_scores name specs = calculate_gpu_scores_sans_g6x_bonus name specs := by
  have h2 : specs.memory_type ≠ ['G', 'D', 'D', 'R', '6', 'X'] := by simpa using h
  unfold calculate_gpu_scores calculate_gpu_scores_sans_g6x_bonus
  simp [h2]

lemma toSpecs_memory_type (g : GpuSpecs) :
    g.toSpecs.memory_type = g.memory_type.getD [] := rfl

/-- C10: the GPU extractor can never produce `memory_type = "GDDR6X"` (the
`gddr6` test precedes the `gddr6x` test and subsumes it), so the GPU scorer
applied to an extracted specification map never receives the GDDR6X
gaming/AI bonus. -/
theorem gddr6x_branch_unreachable (name description : List Char) :
    (extract_gpu_specs name description).memory_type ≠ some "GDDR6X".toList ∧
    calculate_gpu_scores name (extract_gpu_specs name description).toSpecs =
      calculate_gpu_scores_sans_g6x_bonus name
        (extract_gpu_specs name description).toSpecs := by
  have hcases := extract_gpu_memory_type_cases name description
  have hne : (extract_gpu_specs name description).memory_type ≠ some "GDDR6X".toList := by
    rcases hcases with h | h | h <;> rw [h] <;> decide
  refine ⟨hne, gpu_scores_eq_sans_of_not_g6x _ _ ?_⟩
  rw [toSpecs_memory_type]
  rcases hcases with h | h | h <;> rw [h] <;> decide

/-- C9: the Name Normalizer on the title
`"AMD Ryzen 5 5600X 6-Core Processor"` with category CPU yields
manufacturer `"AMD"` and a model containing `"5600X"`. -/
theorem name_normalizer_example :
    (parse_component_name_cpu "AMD Ryzen 5 5600X 6-Core Processor".toList).1 =
      some "AMD".toList ∧
    ∃ m,
      (parse_component_name_cpu "AMD Ryzen 5 5600X 6-Core Processor".toList).2 =
        some m ∧ isSubstr "5600X".toList m = true :=
  ⟨by decide, "Ryzen 5 5600X 6-Core Processor".toList, by decide, by decide⟩

/-- C8: the staleness sweep keeps every record (same length) and maps each
record to itself unless it was last scraped strictly more than 48 hours ago
while marked in stock, in which case only `in_stock` is cleared. -/
theorem staleness_sweep_spec (catalog : List StoredComponent) (now : ℚ) :
    (mark_out_of_stock catalog now).length = catalog.length ∧
    ∀ i : ℕ, (mark_out_of_stock catalog now).get? i =
      (catalog.get? i).map fun c =>
        if c.last_scraped_at < now - 48 ∧ c.in_stock = true then
          { c with in_stock := false }
        else c := by
  refine ⟨by simp [mark_out_of_stock], fun i => ?_⟩
  simp [mark_out_of_stock]

/-!  ## C3: the reported `total_tdp_watts` -/

/-- A CPU drawing 65 W. -/
def tdpDemoCpu : Component := { id := 1, component_type := CompType.cpu, tdp_watts := some 65 }

/-- A PSU with a populated TDP column and a 1000 W rating. -/
def tdpDemoPsu : Component :=
  { id := 2, component_type := CompType.psu, tdp_watts := some 50
    specs := some [("wattage".toList, 1000)] }

def tdpDemoBuild : List Component := [tdpDemoCpu, tdpDemoPsu]

/-- C3 counterexample: on a build whose PSU has a TDP value, the reported
`total_tdp_watts` differs from the sum over non-PSU components (the claim's
value): the checker reports 115 (PSU included) while the non-PSU sum is 65. -/
theorem total_tdp_includes_psu_counterexample :
    (compatCheck tdpDemoBuild).total_tdp_watts ≠ nonPsuTdp tdpDemoBuild := by
  norm_num +decide [compatCheck, allTdp, nonPsuTdp, tdpDemoBuild, tdpDemoCpu, tdpDemoPsu]

lemma tdp_sum_split (components : List Component) :
    allTdp components =
      nonPsuTdp components +
        ((components.filter fun c => c.component_type = CompType.psu).map
          fun c => c.tdp_watts.getD 0).sum := by
  unfold allTdp nonPsuTdp
  induction components with
  | nil => simp
  | cons c cs ih =>
    by_cases h : c.component_type = CompType.psu <;>
      simp [h, ih] <;> ring

/-- C3 amended: the returned `total_tdp_watts` sums the TDP field over every
component including the PSU; it equals the non-PSU sum (used only for the
PSU-wattage rule) plus the PSU rows' own TDP. -/
theorem total_tdp_sums_all_components (components : List Component) :
    (compatCheck components).total_tdp_watts =
      nonPsuTdp components +
        ((components.filter fun c => c.component_type = CompType.psu).map
          fun c => c.tdp_watts.getD 0).sum :=
  tdp_sum_split components

/-!  ## C5: form-factor rule on an mATX board in an ATX case -/

/-- A motherboard whose form factor is `mATX`. -/
def ffDemoMobo : Component :=
  { id := 1, component_type := CompType.motherboard, form_factor := some "mATX".toList }

/-- A case whose form factor is `ATX`. -/
def ffDemoCase : Component :=
  { id := 2, component_type := CompType.caseC, form_factor := some "ATX".toList }

def ffDemoBuild : List Component := [ffDemoMobo, ffDemoCase]

/-- C5, behaviour of the code at the failing input: the substring test
`"mATX" not in "ATX"` fires, so the checker emits a critical
`form_factor_mismatch` and marks the build incompatible, although an ATX
case accepts an mATX board. -/
theorem form_factor_matx_in_atx_rejected :
    (compatCheck ffDemoBuild).compatible = false ∧
      (⟨Severity.critical, IssueKind.form_factor_mismatch⟩ : Issue) ∈
        (compatCheck ffDemoBuild).issues := by decide

/-!  ## C7: the `overall` aggregate's weights -/

/-- A GPU contributing only to the AI aggregate. -/
def ovDemoGpu : Component :=
  { id := 1, component_type := CompType.gpu, gaming_score := some 0
    productivity_score := some 0, ai_score := some 100 }

def ovDemoCatalog : List Component := [ovDemoGpu]

/-- C7 counterexample: with aggregates (0, 0, 70) the scorer returns
`overall = 23.8`, not the equal-weighted average `70/3`. -/
theorem overall_not_equal_weighted_counterexample :
    ¬ ((rate_performance ovDemoCatalog [1] "gaming".toList).all_scores.overall =
        ((rate_performance ovDemoCatalog [1] "gaming".toList).all_scores.gaming +
         (rate_performance ovDemoCatalog [1] "gaming".toList).all_scores.productivity +
         (rate_performance ovDemoCatalog [1] "gaming".toList).all_scores.ai_ml) / 3) := by
  norm_num +decide [rate_performance, compMap, ovDemoCatalog, ovDemoGpu, ramCapacity]

/-- C7 amended: `overall` weights gaming and productivity at 0.33 each and
ai_ml at 0.34 — a near-equal split, equal to one third of the sum plus an
extra hundredth of the ai aggregate. -/
theorem overall_weighting (catalog : List Component) (ids : List Nat)
    (uc : List Char) :
    (rate_performance catalog ids uc).all_scores.overall =
      ((rate_performance catalog ids uc).all_scores.gaming +
       (rate_performance catalog ids uc).all_scores.productivity +
       (rate_performance catalog ids uc).all_scores.ai_ml) * 0.33 +
      (rate_performance catalog ids uc).all_scores.ai_ml * 0.01 := by
  unfold rate_performance
  dsimp only
  ring


/-!  ## C4: `compatible` iff no critical issue -/

/-- No critical-severity issue occurs in the list. -/
def noCrit (issues : List Issue) : Prop :=
  ∀ i ∈ issues, i.severity ≠ Severity.critical

lemma checkSocket_inv (components : List Component) (st : CheckState)
    (h : st.2 = true ↔ noCrit st.1) :
    (checkSocket components st).2 = true ↔ noCrit (checkSocket components st).1 := by
  unfold checkSocket
  cases hcpu : compMap components CompType.cpu <;>
    cases hmobo : compMap components CompType.motherboard <;>
    simp only [] <;> try exact h
  split_ifs with h1 h2
  · simp only [noCrit, List.mem_append, List.mem_singleton]
    simp only [false_iff, not_forall]
    exact ⟨⟨Severity.critical, IssueKind.socket_mismatch⟩, by simp⟩
  · exact h
  · exact h

lemma checkRam_inv (components : List Component) (st : CheckState)
    (h : st.2 = true ↔ noCrit st.1) :
    (checkRam components st).2 = true ↔ noCrit (checkRam components st).1 := by
  unfold checkRam
  cases hram : compMap components CompType.ram <;>
    cases hmobo : compMap components CompType.motherboard <;>
    simp only [] <;> try exact h
  split_ifs with h1 h2
  · simp only [noCrit, List.mem_append, List.mem_singleton]
    simp only [false_iff, not_forall]
    exact ⟨⟨Severity.critical, IssueKind.ram_type_mismatch⟩, by simp⟩
  · exact h
  · exact h

lemma checkPsu_inv (components : List Component) (st : CheckState)
    (h : st.2 = true ↔ noCrit st.1) :
    (checkPsu components st).2 = true ↔ noCrit (checkPsu components st).1 := by
  unfold checkPsu
  cases hpsu : compMap components CompType.psu <;> simp only [] <;> try exact h
  split_ifs with h1
  · simp only [noCrit, List.mem_append, List.mem_singleton] at h ⊢
    constructor
    · intro hc i hi
      rcases hi with hi | hi
      · exact h.mp hc i hi
      · subst hi; simp
    · intro hall
      exact h.mpr fun i hi => hall i (Or.inl hi)
  · exact h

lemma checkFormFactor_inv (components : List Component) (st : CheckState)
    (h : st.2 = true ↔ noCrit st.1) :
    (checkFormFactor components st).2 = true ↔
      noCrit (checkFormFactor components st).1 := by
  unfold checkFormFactor
  cases hmobo : compMap components CompType.motherboard <;>
    cases hcs : compMap components CompType.caseC <;>
    simp only [] <;> try exact h
  split_ifs with h1 h2
  · simp only [noCrit, List.mem_append, List.mem_singleton]
    simp only [false_iff, not_forall]
    exact ⟨⟨Severity.critical, IssueKind.form_factor_mismatch⟩, by simp⟩
  · exact h
  · exact h

lemma checkFormFactor_mono (components : List Component) (st : CheckState) :
    ∃ l, (checkFormFactor components st).1 = st.1 ++ l := by
  unfold checkFormFactor
  cases compMap components CompType.motherboard <;>
    cases compMap components CompType.caseC <;> simp only []
  · exact ⟨[], by simp⟩
  · exact ⟨[], by simp⟩
  · exact ⟨[], by simp⟩
  · split_ifs
    · exact ⟨_, rfl⟩
    · exact ⟨[], by simp⟩
    · exact ⟨[], by simp⟩

lemma checkPsu_warning_mem (components : List Component) (st : CheckState)
    (psu : Component) (hp : compMap components CompType.psu = some psu)
    (hw : psuWattage psu < nonPsuTdp components * 1.3) :
    (⟨Severity.warning, IssueKind.insufficient_psu⟩ : Issue) ∈
      (checkPsu components st).1 := by
  unfold checkPsu
  rw [hp]
  simp only [if_pos hw]
  simp

/-- C4: the `compatible` flag is true exactly when no critical-severity issue
was produced; and an underpowered PSU (wattage below 1.3 times the non-PSU
TDP sum) contributes a warning-severity issue, which by the first part leaves
`compatible` true unless some critical issue exists. -/
theorem compatible_iff_no_critical (components : List Component) :
    ((compatCheck components).compatible = true ↔
      ∀ i ∈ (compatCheck components).issues, i.severity ≠ Severity.critical) ∧
    ∀ psu, compMap components CompType.psu = some psu →
      psuWattage psu < nonPsuTdp components * 1.3 →
      (⟨Severity.warning, IssueKind.insufficient_psu⟩ : Issue) ∈
        (compatCheck components).issues := by
  constructor
  · have h0 : (([], true) : CheckState).2 = true ↔ noCrit ([] : List Issue) := by
      simp [noCrit]
    exact checkFormFactor_inv components _
      (checkPsu_inv components _
        (checkRam_inv components _ (checkSocket_inv components _ h0)))
  · intro psu hp hw
    have hmem := checkPsu_warning_mem components
      (checkRam components (checkSocket components ([], true))) psu hp hw
    obtain ⟨l, hl⟩ := checkFormFactor_mono components
      (checkPsu components (checkRam components (checkSocket components ([], true))))
    show _ ∈ (checkFormFactor components _).1
    rw [hl]
    exact List.mem_append_left _ hmem

/-- A CPU drawing far more than the PSU supplies. -/
def psuDemoCpu : Component :=
  { id := 1, component_type := CompType.cpu, tdp_watts := some 300 }

/-- A 200 W PSU. -/
def psuDemoPsu : Component :=
  { id := 2, component_type := CompType.psu
    specs := some [("wattage".toList, 200)] }

def psuDemoBuild : List Component := [psuDemoCpu, psuDemoPsu]

/-- Witness for C4: on a build with a 200 W PSU against 300 W of TDP the
checker emits the insufficient-PSU warning, and `compatible` is still true
because no critical issue exists. -/
theorem compatible_iff_no_critical_witness :
    ((⟨Severity.warning, IssueKind.insufficient_psu⟩ : Issue) ∈
      (compatCheck psuDemoBuild).issues) ∧
    (compatCheck psuDemoBuild).compatible = true :=
  ⟨(compatible_iff_no_critical psuDemoBuild).2 psuDemoPsu (by decide)
      (by norm_num +decide [psuWattage, nonPsuTdp, psuDemoBuild, psuDemoCpu, psuDemoPsu]),
   ((compatible_iff_no_critical psuDemoBuild).1).mpr
     (by norm_num +decide [compatCheck, checkSocket, checkRam, checkPsu,
        checkFormFactor, compMap, psuWattage, nonPsuTdp, psuDemoBuild,
        psuDemoCpu, psuDemoPsu, truthyS])⟩


/-!  ## C2: merge policy on upsert -/

/-- A stored CPU record with a populated `socket_type` both as promoted
column and as a key of the specs bag. -/
def mergeDemoExisting : StoredComponent :=
  { in_stock := true, last_scraped_at := 0, price_dzd := 50000
    manufacturer := some "AMD".toList, model := some "Ryzen 5 5600X".toList
    specs := [("socket_type".toList, SpecVal.str "AM4".toList)]
    benchmark_score := some 65, gaming_score := some 72
    productivity_score := some 75, ai_score := some 60
    socket_type := some (SpecVal.str "AM4".toList)
    ram_type := none, ram_speed := none, tdp_watts := none, form_factor := none }

/-- An incoming listing's non-empty specs bag that lacks `socket_type`. -/
def mergeDemoIncomingSpecs : List (List Char × SpecVal) :=
  [("cores".toList, SpecVal.num 6)]

/-- The record after upserting the incoming listing. -/
def mergeDemoUpdated : StoredComponent :=
  upsert_update mergeDemoExisting 10 50000 (some "AMD".toList)
    (some "Ryzen 5 5600X".toList) mergeDemoIncomingSpecs ⟨65, 72, 75, 60⟩

/-- C2 counterexample: the `socket_type` key of the specs bag was populated
before the update and the incoming listing's bag (non-empty, lacking the key)
erases it, because `existing.specs = specs or existing.specs` replaces the
bag wholesale.  (The promoted `socket_type` column, by contrast, survives.) -/
theorem upsert_erases_specs_bag_key :
    mergeDemoExisting.specs.lookup "socket_type".toList =
      some (SpecVal.str "AM4".toList) ∧
    mergeDemoUpdated.specs.lookup "socket_type".toList = none ∧
    mergeDemoUpdated.socket_type = some (SpecVal.str "AM4".toList) := by decide

/-- C2 amended: the merge is coalesce-prefer-new field by field for the
scalar columns — independently per field, manufacturer, model, each of the
four score columns and each promoted compatibility column is kept whenever
its own incoming value is empty/falsy, regardless of the other fields — while
the specs bag is merged wholesale: it is kept only when the incoming bag is
entirely empty, and a non-empty incoming bag replaces the stored bag,
erasing any stored key it lacks. -/
theorem upsert_merge_policy (existing : StoredComponent) (now price : ℚ)
    (nm md : Option (List Char)) (specs : List (List Char × SpecVal))
    (scores : Scores) :
    (truthyS nm = false →
      (upsert_update existing now price nm md specs scores).manufacturer =
        existing.manufacturer) ∧
    (truthyS md = false →
      (upsert_update existing now price nm md specs scores).model =
        existing.model) ∧
    (scores.benchmark_score = 0 →
      (upsert_update existing now price nm md specs scores).benchmark_score =
        existing.benchmark_score) ∧
    (scores.gaming_score = 0 →
      (upsert_update existing now price nm md specs scores).gaming_score =
        existing.gaming_score) ∧
    (scores.productivity_score = 0 →
      (upsert_update existing now price nm md specs scores).productivity_score =
        existing.productivity_score) ∧
    (scores.ai_score = 0 →
      (upsert_update existing now price nm md specs scores).ai_score =
        existing.ai_score) ∧
    (truthySV (specs.lookup "socket_type".toList) = false →
      (upsert_update existing now price nm md specs scores).socket_type =
        existing.socket_type) ∧
    (truthySV (specs.lookup "ram_type".toList) = false →
      (upsert_update existing now price nm md specs scores).ram_type =
        existing.ram_type) ∧
    (truthySV (specs.lookup "ram_speed".toList) = false →
      (upsert_update existing now price nm md specs scores).ram_speed =
        existing.ram_speed) ∧
    (truthySV (specs.lookup "tdp_watts".toList) = false →
      (upsert_update existing now price nm md specs scores).tdp_watts =
        existing.tdp_watts) ∧
    (truthySV (specs.lookup "form_factor".toList) = false →
      (upsert_update existing now price nm md specs scores).form_factor =
        existing.form_factor) ∧
    (specs = [] →
      (upsert_update existing now price nm md specs scores).specs =
        existing.specs) ∧
    (specs ≠ [] →
      (upsert_update existing now price nm md specs scores).specs = specs) := by
  refine ⟨?_, ?_, ?_, ?_, ?_, ?_, ?_, ?_, ?_, ?_, ?_, ?_, ?_⟩ <;> intro h
  · unfold upsert_update
    simp [h]
  · unfold upsert_update
    simp [h]
  · unfold upsert_update
    simp [mergeScore, h]
  · unfold upsert_update
    simp [mergeScore, h]
  · unfold upsert_update
    simp [mergeScore, h]
  · unfold upsert_update
    simp [mergeScore, h]
  · unfold upsert_update
    simp at h
    simp [h]
  · unfold upsert_update
    simp at h
    simp [h]
  · unfold upsert_update
    simp at h
    simp [h]
  · unfold upsert_update
    simp at h
    simp [h]
  · unfold upsert_update
    simp at h
    simp [h]
  · subst h
    unfold upsert_update
    simp
  · have he : specs.isEmpty = false := by
      cases specs with
      | nil => exact absurd rfl h
      | cons a l => rfl
    unfold upsert_update
    simp [he]

/-- Witness for C2 amended: upserting a listing whose non-empty bag lacks
`socket_type`, whose name fields are empty and whose benchmark score is zero
keeps the promoted `socket_type` column, the stored benchmark score and the
stored manufacturer, while the bag itself is replaced by the incoming one. -/
theorem upsert_merge_policy_witness :
    (upsert_update mergeDemoExisting 10 50000 none none mergeDemoIncomingSpecs
        ⟨0, 72, 75, 60⟩).socket_type = mergeDemoExisting.socket_type ∧
    (upsert_update mergeDemoExisting 10 50000 none none mergeDemoIncomingSpecs
        ⟨0, 72, 75, 60⟩).benchmark_score = mergeDemoExisting.benchmark_score ∧
    (upsert_update mergeDemoExisting 10 50000 none none mergeDemoIncomingSpecs
        ⟨0, 72, 75, 60⟩).manufacturer = mergeDemoExisting.manufacturer ∧
    (upsert_update mergeDemoExisting 10 50000 none none mergeDemoIncomingSpecs
        ⟨0, 72, 75, 60⟩).specs = mergeDemoIncomingSpecs := by
  obtain ⟨h1, h2, h3, h4, h5, h6, h7, h8, h9, h10, h11, h12, h13⟩ :=
    upsert_merge_policy mergeDemoExisting 10 50000 none none
      mergeDemoIncomingSpecs ⟨0, 72, 75, 60⟩
  exact ⟨h7 (by decide), h3 rfl, h1 rfl, h13 (by decide)⟩

/-!  ## C6: behaviour on missing component IDs -/

/-- A one-CPU catalog. -/
def scoreDemoCatalog : List Component :=
  [{ id := 1, component_type := CompType.cpu, gaming_score := some 80
     productivity_score := some 70, ai_score := some 60 }]

/-- C6 counterexample: requesting ids `[1, 2]` against a catalog that has no
component 2, `rate_performance` does not fail: it returns the same scores as
for the found subset `[1]` — a partial score of 24 for gaming. -/
theorem rate_performance_ignores_missing_ids :
    rate_performance scoreDemoCatalog [1, 2] "gaming".toList =
      rate_performance scoreDemoCatalog [1] "gaming".toList ∧
    (rate_performance scoreDemoCatalog [1, 2] "gaming".toList).use_case_score = 24 ∧
    ∀ c ∈ scoreDemoCatalog, c.id ≠ 2 := by
  refine ⟨rfl, ?_, by decide⟩
  norm_num +decide [rate_performance, compMap, scoreDemoCatalog, ramCapacity]

/-- C6 amended: when a referenced id is absent from the catalog,
`check_compatibility` fails entirely with the not-found error, while
`rate_performance` performs no such check: it scores exactly the ids that
are present, ignoring the missing ones. -/
theorem not_found_handling (catalog : List Component) (ids : List Nat)
    (uc : List Char) (hnodup : (catalog.map Component.id).Nodup)
    (hmissing : ∃ i ∈ ids, ∀ c ∈ catalog, c.id ≠ i) :
    (∃ e, check_compatibility catalog ids = Except.error e) ∧
    rate_performance catalog ids uc =
      rate_performance catalog
        (ids.filter fun j => (catalog.map Component.id).contains j) uc := by
  obtain ⟨i, hi, habs⟩ := hmissing
  constructor
  · have hsub : ((catalog.filter fun c => ids.contains c.id).map Component.id).Sublist
        (catalog.map Component.id) := (List.filter_sublist _).map _
    have hnd : ((catalog.filter fun c => ids.contains c.id).map Component.id).Nodup :=
      hnodup.sublist hsub
    have hsubset : ∀ x ∈ (catalog.filter fun c => ids.contains c.id).map Component.id,
        x ∈ ids.toFinset.erase i := by
      intro x hx
      obtain ⟨c, hc, rfl⟩ := List.mem_map.mp hx
      obtain ⟨hcc, hcid⟩ := List.mem_filter.mp hc
      exact Finset.mem_erase.mpr
        ⟨habs c hcc, List.mem_toFinset.mpr (by simpa using hcid)⟩
    have hcard :
        ((catalog.filter fun c => ids.contains c.id).map Component.id).length ≤
          (ids.toFinset.erase i).card := by
      rw [← List.toFinset_card_of_nodup hnd]
      exact Finset.card_le_card fun x hx => hsubset x (List.mem_toFinset.mp hx)
    have hlt : (catalog.filter fun c => ids.contains c.id).length < ids.length := by
      have h1 : (ids.toFinset.erase i).card < ids.toFinset.card :=
        Finset.card_erase_lt_of_mem (List.mem_toFinset.mpr hi)
      have h2 : ids.toFinset.card ≤ ids.length := ids.toFinset_card_le
      have h3 : ((catalog.filter fun c => ids.contains c.id).map Component.id).length =
          (catalog.filter fun c => ids.contains c.id).length := List.length_map _ _
      omega
    have herr : check_compatibility catalog ids =
        Except.error "Error: Some component IDs not found".toList := by
      unfold check_compatibility
      rw [if_pos (Nat.ne_of_lt hlt)]
    exact ⟨_, herr⟩
  · have hfil : (catalog.filter fun c => ids.contains c.id) =
        catalog.filter fun c =>
          (ids.filter fun j => (catalog.map Component.id).contains j).contains c.id := by
      apply List.filter_congr
      intro c hc
      have hmemmap : c.id ∈ catalog.map Component.id := List.mem_map.mpr ⟨c, hc, rfl⟩
      have hiff : c.id ∈ ids ↔
          c.id ∈ ids.filter fun j => (catalog.map Component.id).contains j := by
        constructor
        · intro hm
          exact List.mem_filter.mpr ⟨hm, by simpa using hmemmap⟩
        · intro hm
          exact (List.mem_filter.mp hm).1
      cases hb : ids.contains c.id <;>
        cases hb2 : (ids.filter fun j => (catalog.map Component.id).contains j).contains c.id <;>
        simp_all
    unfold rate_performance
    rw [hfil]

/-- Witness for C6 amended: on the one-CPU catalog with ids `[1, 2]` the
compatibility tool errors while the build scorer silently scores only id 1. -/
theorem not_found_handling_witness :
    (∃ e, check_compatibility scoreDemoCatalog [1, 2] = Except.error e) ∧
    rate_performance scoreDemoCatalog [1, 2] "gaming".toList =
      rate_performance scoreDemoCatalog
        ([1, 2].filter fun j => (scoreDemoCatalog.map Component.id).contains j)
        "gaming".toList :=
  not_found_handling scoreDemoCatalog [1, 2] "gaming".toList (by decide)
    ⟨2, by decide, by decide⟩

end PCCore
